import Mathlib

/- Verification development for the gravitygolf scene engine
   (src/lib/scene/index.ts, the EventDispatcher-based Scene class; the
   repository also carries a superseded legacy copy of the same class).

   Coordinates, velocities and times are modelled as real numbers.
   Rendering calls, cursor updates and image handles are external sinks
   carrying no simulation state and are omitted.  JavaScript object
   references into the force array are modelled as list indices: the
   only references ever stored (`mouseCurrent.force`) are obtained from
   the array itself, and between pointer-down and pointer-up no
   operation reorders the array, so an index is a faithful stand-in
   for a reference and `Array.prototype.indexOf` on that reference
   returns exactly that index. -/

namespace GravityGolf

noncomputable section

/-- Modelled from the spec: `$lib/position` (not under src/) — a 2D point. -/
@[ext]
structure Position where
  x : ℝ
  y : ℝ

/-- Live ball of the scene: position, radius and velocity (image handle omitted). -/
@[ext]
structure Ball where
  x : ℝ
  y : ℝ
  radius : ℝ
  vx : ℝ
  vy : ℝ

/-- A circle-shaped static entity `{x, y, radius}`; used for the level's
authored ball, the hole and the stars (image handles omitted). -/
structure CircleSpec where
  x : ℝ
  y : ℝ
  radius : ℝ

/-- Axis-aligned rectangular wall `{x, y, width, height}`. -/
structure Wall where
  x : ℝ
  y : ℝ
  width : ℝ
  height : ℝ

/-- A force emitter `{x, y, direction}` (image handle omitted);
`direction` is `1` for attractive ("gravity") and `-1` for repulsive
("antigravity") emitters. -/
@[ext]
structure Force where
  x : ℝ
  y : ℝ
  direction : ℤ

/-- Modelled from the spec: `$lib/level` (not under src/) — the level record
read by the Scene constructor, `reset`, `clear` and `tick`. -/
structure Level where
  ball : CircleSpec
  hole : CircleSpec
  walls : List Wall
  stars : List CircleSpec
  defaultGravity : List Position
  defaultAntigravity : List Position
  id : ℕ

/-- Transient pointer-down state: press position and mouse button. -/
structure MouseStart where
  x : ℝ
  y : ℝ
  button : ℕ

/-- Transient drag state: last seen position and the force (by index)
associated with the gesture, if any. -/
structure MouseCurrent where
  x : ℝ
  y : ℝ
  force : Option ℕ

/-- Notification emitted through the `EventDispatcher` base class:
`forces (attractiveCount, repulsiveCount)`. -/
inductive SceneEvent where
  | forces (attractive repulsive : ℕ)
deriving DecidableEq

/-- The Scene aggregate (canvas handle reduced to its width/height,
`levels.json` reduced to its length `numLevels`; `nextFrameId` models the
browser's supply of fresh `requestAnimationFrame` ids). -/
structure Scene where
  level : Level
  numLevels : ℕ
  canvasWidth : ℝ
  canvasHeight : ℝ
  previousTime : Option ℝ
  frame : Option ℕ
  nextFrameId : ℕ
  center : Position
  mouseStart : Option MouseStart
  mouseCurrent : Option MouseCurrent
  hit : Bool
  forces : List Force
  ball : Ball
  hole : CircleSpec
  stars : List CircleSpec
  walls : List Wall

/-- Modelled from the spec: `scene/force/radius` (not under src/) — the fixed
force hit-test/render radius; the repository's legacy scene module sets it
to 30. -/
def FORCE_RADIUS : ℝ := 30

/-- Maximum pull-back distance, `src/lib/scene/index.ts` line 346. -/
def MAX_DISTANCE : ℝ := 800

/-- Maximum launch speed, `src/lib/scene/index.ts` line 347. -/
def MAX_VELOCITY : ℝ := 500

/-- Modelled from the spec: `scene/distance/squared` (not under src/) —
squared Euclidean distance between two points. -/
def distanceSquared (a b : Position) : ℝ :=
  (b.x - a.x) ^ 2 + (b.y - a.y) ^ 2

/-- Modelled from the spec: `scene/distance` (not under src/) — Euclidean
distance between two points. -/
def distance (a b : Position) : ℝ :=
  Real.sqrt (distanceSquared a b)

/-- Modelled from the spec: `scene/clamp` (not under src/) — clamp `v` into
the interval from `lo` to `hi`. -/
def clamp (lo hi v : ℝ) : ℝ :=
  max lo (min hi v)

/-- Modelled from the spec: `scene/split/hypotenuse` (not under src/) —
the vector of magnitude `m` pointing from `a` toward `b`, derived via
similar-triangles ratios from the separation `d`. -/
def splitHypotenuse (a b : Position) (d m : ℝ) : Position :=
  ⟨(b.x - a.x) / d * m, (b.y - a.y) / d * m⟩

/-- Modelled from the spec: `scene/normalize/point` (not under src/) —
world position to surface pixel position, y axis inverted:
`⟨width / 2 + p.x + center.x, height / 2 - p.y - center.y⟩`. -/
def normalizePoint (p : Position) (canvasWidth canvasHeight : ℝ)
    (center : Position) : Position :=
  ⟨canvasWidth / 2 + p.x + center.x, canvasHeight / 2 - p.y - center.y⟩

/-- Normalize a point against a scene's canvas and pan-center. -/
def Scene.nPoint (s : Scene) (p : Position) : Position :=
  normalizePoint p s.canvasWidth s.canvasHeight s.center

/-- Modelled from the spec: `scene/normalize/shape` on a wall (not under
src/) — same coordinate transform on the rectangle's x/y. -/
def Scene.nRect (s : Scene) (w : Wall) : Wall :=
  let p := normalizePoint ⟨w.x, w.y⟩ s.canvasWidth s.canvasHeight s.center
  { w with x := p.x, y := p.y }

/-- JavaScript `Math.atan2`, written piecewise via `Real.arctan`. -/
def atan2 (y x : ℝ) : ℝ :=
  if 0 < x then Real.arctan (y / x)
  else if x < 0 then
    if 0 ≤ y then Real.arctan (y / x) + Real.pi
    else Real.arctan (y / x) - Real.pi
  else
    if 0 < y then Real.pi / 2
    else if y < 0 then -(Real.pi / 2)
    else 0

/-- Modelled from the spec: `scene/collision` (not under src/) — clamp the
circle center to the rectangle to find the nearest point; on overlap return
the angle from the nearest point to the circle center, else `none`. -/
def collision (c : CircleSpec) (r : Wall) : Option ℝ :=
  let nearestX := clamp r.x (r.x + r.width) c.x
  let nearestY := clamp r.y (r.y + r.height) c.y
  if distance ⟨nearestX, nearestY⟩ ⟨c.x, c.y⟩ ≤ c.radius then
    some (atan2 (c.y - nearestY) (c.x - nearestX))
  else none

/-- Bounce response applied per detected wall collision inside `tick`
(`src/lib/scene/index.ts` lines 437-445): reflect the heading about the
contact angle, keeping the speed `√(vy² + vx²)`. -/
def bounce (angle vx vy : ℝ) : ℝ × ℝ :=
  let v := atan2 (-vy) vx
  let bounceAngle := 2 * angle - v + Real.pi
  let speed := Real.sqrt (vy ^ 2 + vx ^ 2)
  (Real.cos bounceAngle * speed, -Real.sin bounceAngle * speed)

/-- Per-force velocity contribution computed inside `tick`
(`src/lib/scene/index.ts` lines 448-463): inverse-square magnitude,
clamped to `[-5000, 5000]`, decomposed from the force toward the ball. -/
def forceAcceleration (s : Scene) (f : Force) (ballPos : Position) : Position :=
  let rSquared := distanceSquared (s.nPoint ballPos) (s.nPoint ⟨f.x, f.y⟩)
  splitHypotenuse (s.nPoint ⟨f.x, f.y⟩) (s.nPoint ballPos) (Real.sqrt rSquared)
    (clamp (-5000) 5000 ((f.direction : ℝ) * 100000000 / rSquared))

/-- `tick`'s wall loop (`src/lib/scene/index.ts` lines 431-446): each wall in
order, on collision replace the velocity by the bounce response.  Only the
velocity changes, so every wall is tested against the same ball position. -/
def applyWallBounces (s : Scene) : Ball :=
  s.walls.foldl
    (fun b wall =>
      let nb := s.nPoint ⟨b.x, b.y⟩
      match collision ⟨nb.x, nb.y, b.radius⟩ (s.nRect wall) with
      | some angle =>
          let v := bounce angle b.vx b.vy
          { b with vx := v.1, vy := v.2 }
      | none => b)
    s.ball

/-- `tick`'s force loop (`src/lib/scene/index.ts` lines 448-463): accumulate
`acceleration * delta` into the velocity, force by force. -/
def applyForces (s : Scene) (b0 : Ball) (delta : ℝ) : Ball :=
  s.forces.foldl
    (fun b f =>
      let a := forceAcceleration s f ⟨b.x, b.y⟩
      { b with vx := b.vx + a.x * delta, vy := b.vy + a.y * delta })
    b0

/-- `tick`'s unconditional position integration
(`src/lib/scene/index.ts` lines 466-467): `x += vx * delta; y -= vy * delta`. -/
def integrateBall (b : Ball) (delta : ℝ) : Ball :=
  { b with x := b.x + b.vx * delta, y := b.y - b.vy * delta }

/-- Win test of `tick` (`src/lib/scene/index.ts` lines 414-419): the
normalized ball center lies within `hole.radius - ball.radius` of the
normalized hole center. -/
def winCondition (s : Scene) : Prop :=
  distance (s.nPoint ⟨s.ball.x, s.ball.y⟩) (s.nPoint ⟨s.hole.x, s.hole.y⟩) ≤
    s.hole.radius - s.ball.radius

instance (s : Scene) : Decidable (winCondition s) := Real.decidableLE _ _

/-- Navigation target handed to `goto` on a win
(`src/lib/scene/index.ts` lines 423-426). -/
inductive NavTarget where
  | levelsIndex
  | levelPage (id : ℕ)
deriving DecidableEq

/-- `/levels` when the current level is the last, else `/levels/{id + 1}`. -/
def navTarget (id numLevels : ℕ) : NavTarget :=
  if id = numLevels then NavTarget.levelsIndex else NavTarget.levelPage (id + 1)

/-- Outcome of one `tick`: either the frame completed and rescheduled
itself, or the level was won and navigation was invoked. -/
inductive TickResult where
  | contin
  | won (target : NavTarget)
deriving DecidableEq

/-- Re-registration of the frame callback at the end of `tick`
(`src/lib/scene/index.ts` line 533). -/
def reschedule (s : Scene) : Scene × TickResult :=
  ({ s with frame := some s.nextFrameId, nextFrameId := s.nextFrameId + 1 },
   TickResult.contin)

/-- The frame callback `tick` (`src/lib/scene/index.ts` lines 405-534),
rendering omitted.  `currentTime` arrives in milliseconds; `delta` is the
elapsed time in seconds (zero on the first frame).  In motion mode the win
test runs first and returns early; otherwise wall bounces, then force
accelerations, then position integration are applied and the callback is
rescheduled. -/
def tick (s : Scene) (currentTimeMs : ℝ) : Scene × TickResult :=
  let currentTime := currentTimeMs / 1000
  let delta := currentTime - s.previousTime.getD currentTime
  let s0 : Scene := { s with frame := none, previousTime := some currentTime }
  if s0.hit then
    if winCondition s0 then
      (s0, TickResult.won (navTarget s0.level.id s0.numLevels))
    else
      let b1 := applyWallBounces s0
      let b2 := applyForces s0 b1 delta
      reschedule { s0 with ball := integrateBall b2 delta }
  else
    reschedule { s0 with ball := integrateBall s0.ball delta }

/-- Device-scaled, floored pointer position computed at the top of every
mouse handler (`Math.floor(offset * devicePixelRatio)`). -/
def mouseOf (offsetX offsetY devicePixelRatio : ℝ) : Position :=
  ⟨(⌊offsetX * devicePixelRatio⌋ : ℤ), (⌊offsetY * devicePixelRatio⌋ : ℤ)⟩

/-- Force hit-test `mouseOnForce` (`src/lib/scene/index.ts` lines 639-641):
the pointer lies within `FORCE_RADIUS` of the normalized force position. -/
def mouseOnForce (s : Scene) (mouse : Position) (f : Force) : Prop :=
  distance (s.nPoint ⟨f.x, f.y⟩) mouse ≤ FORCE_RADIUS

instance (s : Scene) (m : Position) (f : Force) : Decidable (mouseOnForce s m f) :=
  Real.decidableLE _ _

/-- Per-direction force counts, computed by `dispatchForces`'s reduce
(`src/lib/scene/index.ts` lines 658-664): index 0 counts `direction = 1`,
index 1 the rest. -/
def countForces (forces : List Force) : ℕ × ℕ :=
  forces.foldl
    (fun remaining force =>
      if force.direction = 1 then (remaining.1 + 1, remaining.2)
      else (remaining.1, remaining.2 + 1))
    (0, 0)

/-- `dispatchForces` (`src/lib/scene/index.ts` lines 655-666): the
notification carrying both counts, recomputed from the current collection. -/
def dispatchForces (forces : List Force) : SceneEvent :=
  SceneEvent.forces (countForces forces).1 (countForces forces).2

/-- `reset` (`src/lib/scene/index.ts` lines 682-691): leave motion mode and
recreate the ball from the level's authored ball with zero velocity.
Nothing else is touched and no notification is emitted. -/
def reset (s : Scene) : Scene × List SceneEvent :=
  ({ s with
      hit := false,
      ball := ⟨s.level.ball.x, s.level.ball.y, s.level.ball.radius, 0, 0⟩ },
   [])

/-- `clear` (`src/lib/scene/index.ts` lines 693-710): `reset`, then replace
the force collection with the level's defaults, then dispatch one
force-count notification.  NB the source builds BOTH lists with
`direction: 1 as const` — the `defaultAntigravity` branch also assigns
direction 1 (only its image differs); this is embedded as written. -/
def clear (s : Scene) : Scene × List SceneEvent :=
  let s1 := (reset s).1
  let forces :=
    s1.level.defaultGravity.map (fun p => (⟨p.x, p.y, 1⟩ : Force)) ++
      s1.level.defaultAntigravity.map (fun p => (⟨p.x, p.y, 1⟩ : Force))
  ({ s1 with forces := forces }, [dispatchForces forces])

/-- `down` (`src/lib/scene/index.ts` lines 536-554): record press position
and button; associate the first force within `FORCE_RADIUS` of the pointer
(by index), else no force.  No mode guard and no notification. -/
def down (s : Scene) (offsetX offsetY devicePixelRatio : ℝ) (button : ℕ) :
    Scene :=
  let mouse := mouseOf offsetX offsetY devicePixelRatio
  let forceIdx :=
    s.forces.findIdx? (fun f => decide (mouseOnForce s mouse f))
  { s with
      mouseStart := some ⟨mouse.x, mouse.y, button⟩,
      mouseCurrent := some ⟨mouse.x, mouse.y, forceIdx⟩ }

/-- List update at an index, used to model in-place mutation of the force
object referenced by `mouseCurrent.force`. -/
def modifyIdx (l : List Force) (i : ℕ) (g : Force → Force) : List Force :=
  match l.get? i with
  | some f => l.set i (g f)
  | none => l

/-- `move` (`src/lib/scene/index.ts` lines 556-582): with the primary button
held, either drag the associated force or pan the view (y inverted), and
advance the drag anchor; cursor feedback omitted. -/
def move (s : Scene) (offsetX offsetY devicePixelRatio : ℝ) : Scene :=
  let mouse := mouseOf offsetX offsetY devicePixelRatio
  match s.mouseStart, s.mouseCurrent with
  | some ms, some mc =>
      if ms.button = 0 then
        let s1 :=
          match mc.force with
          | some i =>
              { s with
                  forces :=
                    modifyIdx s.forces i fun f =>
                      { f with
                          x := f.x + (mouse.x - mc.x),
                          y := f.y - (mouse.y - mc.y) } }
          | none =>
              { s with
                  center :=
                    ⟨s.center.x + (mouse.x - mc.x), s.center.y - (mouse.y - mc.y)⟩ }
        { s1 with mouseCurrent := some { mc with x := mouse.x, y := mouse.y } }
      else s
  | _, _ => s

/-- The force-removal test of `up`'s secondary-button branch
(`src/lib/scene/index.ts` lines 615-629), written as an optional chain like
the source's `this.mouseCurrent?.force && this.mouseOnForce(...)` followed
by the `indexOf` presence check: a force was associated at pointer-down,
it is still present in the collection (`indexOf` ≥ 0, i.e. the index still
resolves), and the release position is on it (`mouseOnForce`). -/
def secondaryRemovalIndex (s : Scene) (mouse : Position) : Option ℕ :=
  s.mouseCurrent.bind fun mc =>
    mc.force.bind fun i =>
      (s.forces.get? i).bind fun f =>
        if mouseOnForce s mouse f then some i else none

/-- The launch velocity computed by `up`'s shot branch
(`src/lib/scene/index.ts` lines 603-611): the decomposition of magnitude
`min(distanceFactor / MAX_DISTANCE, 1) * MAX_VELOCITY` from the pointer
toward the normalized ball. -/
def shotVelocity (s : Scene) (mouse : Position) : Position :=
  let normalizedBall := s.nPoint ⟨s.ball.x, s.ball.y⟩
  let distanceFactor := distance mouse normalizedBall
  splitHypotenuse mouse normalizedBall distanceFactor
    (min (distanceFactor / MAX_DISTANCE) 1 * MAX_VELOCITY)

/-- `up` (`src/lib/scene/index.ts` lines 584-633): early-return in motion
mode or without a recorded press; primary-button release on the press
position launches the ball (speed `min(d / MAX_DISTANCE, 1) * MAX_VELOCITY`
toward the ball) and enters motion mode; secondary-button release on the
associated force removes it and dispatches a force-count notification;
every processed release clears `mouseStart` and `mouseCurrent`. -/
def up (s : Scene) (offsetX offsetY devicePixelRatio : ℝ) :
    Scene × List SceneEvent :=
  if s.hit then (s, [])
  else
    match s.mouseStart with
    | none => (s, [])
    | some ms =>
        let mouse := mouseOf offsetX offsetY devicePixelRatio
        if ms.button = 0 ∧ mouse.x = ms.x ∧ mouse.y = ms.y then
          ({ s with
              hit := true,
              ball := { s.ball with
                vx := (shotVelocity s mouse).x,
                vy := (shotVelocity s mouse).y },
              mouseStart := none,
              mouseCurrent := none },
           [])
        else
          if ms.button = 2 then
            match secondaryRemovalIndex s mouse with
            | some i =>
                let forces := s.forces.eraseIdx i
                ({ s with
                    forces := forces,
                    mouseStart := none,
                    mouseCurrent := none },
                 [dispatchForces forces])
            | none => ({ s with mouseStart := none, mouseCurrent := none }, [])
          else ({ s with mouseStart := none, mouseCurrent := none }, [])

/-- `addForce` (`src/lib/scene/index.ts` lines 668-680): convert a surface
position to world space, append the new emitter and dispatch a force-count
notification; cursor feedback omitted. -/
def addForce (s : Scene) (p : Position) (direction : ℤ)
    (devicePixelRatio : ℝ) : Scene × List SceneEvent :=
  let f : Force :=
    ⟨p.x * devicePixelRatio + FORCE_RADIUS - s.canvasWidth / 2 - s.center.x,
     -(p.y * devicePixelRatio) - FORCE_RADIUS + s.canvasHeight / 2 - s.center.y,
     direction⟩
  let forces := s.forces ++ [f]
  ({ s with forces := forces }, [dispatchForces forces])

/-- `key` (`src/lib/scene/index.ts` lines 651-653): the space key resets
the ball (the key string is modelled as a flag). -/
def keyHandler (s : Scene) (isSpace : Bool) : Scene × List SceneEvent :=
  if isSpace then reset s else (s, [])

/- ------------------------------------------------------------------
   Lifecycle model for construction and `destroy`
   (`src/lib/scene/index.ts` lines 370-400 and 712-723).
   The scene's registrations and the browser scheduler are made explicit:
   `frame` is the scene's stored animation-frame id, `pending` the
   scheduler's pending callback id, the six booleans the listeners added
   by the constructor, and `dispatcherCount` the `EventDispatcher`
   subscriptions removed by `removeAllEventListeners`.
   ------------------------------------------------------------------ -/

/-- Registration state of one scene plus the browser frame scheduler. -/
structure DestroyState where
  frame : Option ℕ
  pending : Option ℕ
  resizeListener : Bool
  keydownListener : Bool
  mousedownListener : Bool
  mousemoveListener : Bool
  mouseupListener : Bool
  contextmenuListener : Bool
  dispatcherCount : ℕ
deriving DecidableEq

/-- Browser `cancelAnimationFrame`: cancelling an id that is not pending is
a no-op, so repeated cancellation is harmless (never throws). -/
def cancelFrame (pending : Option ℕ) (id : ℕ) : Option ℕ :=
  if pending = some id then none else pending

/-- `destroy` (`src/lib/scene/index.ts` lines 712-723):
`removeAllEventListeners`, then unregister the resize, keydown, mousedown,
mousemove and mouseup listeners, then cancel the stored frame if any
(`frame` ids are positive, so JS truthiness is `isSome`).  The
`contextmenu` listener registered at construction (line 397) is NOT
removed, and `frame` itself is left as is. -/
def destroy (s : DestroyState) : DestroyState :=
  let s1 : DestroyState :=
    { s with
        dispatcherCount := 0,
        resizeListener := false,
        keydownListener := false,
        mousedownListener := false,
        mousemoveListener := false,
        mouseupListener := false }
  match s1.frame with
  | some id => { s1 with pending := cancelFrame s1.pending id }
  | none => s1

/-- The scheduler can invoke the scene's `tick` exactly when a frame
callback of the scene is still pending. -/
def tickCanFire (s : DestroyState) : Bool :=
  s.pending.isSome

/-- Registration state right after the constructor ran: the initial
`requestAnimationFrame` id is stored and pending, all six listeners are
registered, and `n` external observers are subscribed. -/
def constructedLifecycle (id n : ℕ) : DestroyState :=
  ⟨some id, some id, true, true, true, true, true, true, n⟩

/- ------------------------------------------------------------------
   Helper lemmas
   ------------------------------------------------------------------ -/

theorem distanceSquared_nonneg (a b : Position) : 0 ≤ distanceSquared a b := by
  unfold distanceSquared
  positivity

theorem distanceSquared_comm (a b : Position) :
    distanceSquared a b = distanceSquared b a := by
  unfold distanceSquared
  ring

theorem distance_sq (a b : Position) : distance a b ^ 2 = distanceSquared a b :=
  Real.sq_sqrt (distanceSquared_nonneg a b)

/-- Magnitude of the similar-triangles decomposition at the true separation:
splitting a magnitude `m` over the direction from `a` to `b` yields a vector
of length `|m|`, provided the points are distinct. -/
theorem splitHypotenuse_mag (a b : Position) (m : ℝ)
    (h : distance a b ≠ 0) :
    Real.sqrt ((splitHypotenuse a b (distance a b) m).x ^ 2 +
      (splitHypotenuse a b (distance a b) m).y ^ 2) = |m| := by
  have hd : distance a b ^ 2 = (b.x - a.x) ^ 2 + (b.y - a.y) ^ 2 := by
    rw [distance_sq]
    unfold distanceSquared
    ring
  have hsum :
      ((b.x - a.x) / distance a b * m) ^ 2 +
        ((b.y - a.y) / distance a b * m) ^ 2 = m ^ 2 := by
    field_simp
    linear_combination (-(m ^ 2)) * hd
  show Real.sqrt (((b.x - a.x) / distance a b * m) ^ 2 +
    ((b.y - a.y) / distance a b * m) ^ 2) = |m|
  rw [hsum, Real.sqrt_sq_eq_abs]

theorem clamp_abs_le (v : ℝ) : |clamp (-5000) 5000 v| ≤ 5000 := by
  unfold clamp
  rw [abs_le]
  constructor
  · exact le_max_left _ _
  · exact max_le (by norm_num) (min_le_left _ _)

theorem atan2_zero_pos {x : ℝ} (hx : 0 < x) : atan2 0 x = 0 := by
  unfold atan2
  rw [if_pos hx]
  simp

theorem atan2_zero_neg {x : ℝ} (hx : x < 0) : atan2 0 x = Real.pi := by
  unfold atan2
  rw [if_neg (by linarith), if_pos hx, if_pos le_rfl]
  simp

theorem atan2_zero_zero : atan2 0 0 = 0 := by
  unfold atan2
  norm_num

theorem sqrt_hundred : Real.sqrt 100 = 10 := by
  rw [show (100 : ℝ) = 10 ^ 2 by norm_num, Real.sqrt_sq (by norm_num)]

theorem sqrt_160000 : Real.sqrt 160000 = 400 := by
  rw [show (160000 : ℝ) = 400 ^ 2 by norm_num, Real.sqrt_sq (by norm_num)]

/- ------------------------------------------------------------------
   Concrete fixtures used by witnesses and counterexamples
   ------------------------------------------------------------------ -/

/-- A concrete level: one authored attractive default and one authored
repulsive ("antigravity") default. -/
def L0 : Level :=
  { ball := ⟨0, 0, 10⟩,
    hole := ⟨200, 0, 25⟩,
    walls := [],
    stars := [],
    defaultGravity := [⟨-100, 0⟩],
    defaultAntigravity := [⟨50, 50⟩],
    id := 1 }

/-- A concrete scene over `L0` in setup mode; the zero-sized canvas and
zero pan-center make `nPoint ⟨x, y⟩ = ⟨x, -y⟩`. -/
def blankScene : Scene :=
  { level := L0,
    numLevels := 3,
    canvasWidth := 0,
    canvasHeight := 0,
    previousTime := none,
    frame := none,
    nextFrameId := 1,
    center := ⟨0, 0⟩,
    mouseStart := none,
    mouseCurrent := none,
    hit := false,
    forces := [],
    ball := ⟨0, 0, 10, 0, 0⟩,
    hole := ⟨200, 0, 25⟩,
    stars := [],
    walls := [] }

/-- Scene for the C2 analysis: one force whose normalized position is
`(100, 100)`, pressed on with the secondary button at `(100, 100)`. -/
def sceneC2 : Scene :=
  { blankScene with
      forces := [⟨100, -100, 1⟩],
      mouseStart := some ⟨100, 100, 2⟩,
      mouseCurrent := some ⟨100, 100, some 0⟩ }

/- ------------------------------------------------------------------
   Structural lemmas about the handlers
   ------------------------------------------------------------------ -/

theorem tick_hit_preserved (s : Scene) (t : ℝ) : (tick s t).1.hit = s.hit := by
  simp only [tick]
  split_ifs <;> rfl

theorem tick_hit_win (s : Scene) (t : ℝ) (hhit : s.hit = true)
    (hw : winCondition s) :
    tick s t = ({ s with frame := none, previousTime := some (t / 1000) },
      TickResult.won (navTarget s.level.id s.numLevels)) := by
  simp only [tick]
  rw [if_pos hhit]
  rw [if_pos
    (show winCondition { s with frame := none, previousTime := some (t / 1000) }
      from hw)]

theorem tick_snd_nowin (s : Scene) (t : ℝ) (hw : ¬ winCondition s) :
    (tick s t).2 = TickResult.contin := by
  simp only [tick]
  split_ifs with h1 h2
  · exact absurd h2 hw
  · rfl
  · rfl

theorem tick_nohit_ball (s : Scene) (t : ℝ) (h : s.hit = false) :
    (tick s t).1.ball =
      integrateBall s.ball (t / 1000 - s.previousTime.getD (t / 1000)) := by
  simp only [tick]
  rw [if_neg (show ¬ (s.hit = true) by simp [h])]
  rfl

theorem up_hit_eq (s : Scene) (offsetX offsetY dpr : ℝ) (h : s.hit = true) :
    up s offsetX offsetY dpr = (s, []) := by
  unfold up
  rw [if_pos h]

theorem up_start_none_eq (s : Scene) (offsetX offsetY dpr : ℝ)
    (h0 : s.hit = false) (h1 : s.mouseStart = none) :
    up s offsetX offsetY dpr = (s, []) := by
  unfold up
  rw [if_neg (by simp [h0]), h1]

theorem up_some_eq (s : Scene) (offsetX offsetY dpr : ℝ) (ms : MouseStart)
    (h0 : s.hit = false) (h1 : s.mouseStart = some ms) :
    up s offsetX offsetY dpr =
      (if ms.button = 0 ∧ (mouseOf offsetX offsetY dpr).x = ms.x ∧
          (mouseOf offsetX offsetY dpr).y = ms.y then
        ({ s with
            hit := true,
            ball := { s.ball with
              vx := (shotVelocity s (mouseOf offsetX offsetY dpr)).x,
              vy := (shotVelocity s (mouseOf offsetX offsetY dpr)).y },
            mouseStart := none,
            mouseCurrent := none },
         [])
      else if ms.button = 2 then
        match secondaryRemovalIndex s (mouseOf offsetX offsetY dpr) with
        | some i =>
            ({ s with
                forces := s.forces.eraseIdx i,
                mouseStart := none,
                mouseCurrent := none },
             [dispatchForces (s.forces.eraseIdx i)])
        | none => ({ s with mouseStart := none, mouseCurrent := none }, [])
      else ({ s with mouseStart := none, mouseCurrent := none }, [])) := by
  unfold up
  rw [if_neg (by simp [h0]), h1]

theorem up_cases (s : Scene) (offsetX offsetY dpr : ℝ) :
    (up s offsetX offsetY dpr).1.hit = true ∨
      ((up s offsetX offsetY dpr).1.ball = s.ball ∧
        (up s offsetX offsetY dpr).1.hit = s.hit) := by
  cases hhit : s.hit with
  | true =>
      rw [up_hit_eq s offsetX offsetY dpr hhit]
      exact Or.inl hhit
  | false =>
      cases hms : s.mouseStart with
      | none =>
          rw [up_start_none_eq s offsetX offsetY dpr hhit hms]
          exact Or.inr ⟨rfl, hhit⟩
      | some ms =>
          rw [up_some_eq s offsetX offsetY dpr ms hhit hms]
          by_cases hcond : ms.button = 0 ∧
              (mouseOf offsetX offsetY dpr).x = ms.x ∧
              (mouseOf offsetX offsetY dpr).y = ms.y
          · rw [if_pos hcond]
            exact Or.inl rfl
          · rw [if_neg hcond]
            by_cases hb2 : ms.button = 2
            · rw [if_pos hb2]
              cases hsr : secondaryRemovalIndex s (mouseOf offsetX offsetY dpr) with
              | none => exact Or.inr ⟨rfl, hhit⟩
              | some i => exact Or.inr ⟨rfl, hhit⟩
            · rw [if_neg hb2]
              exact Or.inr ⟨rfl, hhit⟩

theorem move_some_eq (s : Scene) (offsetX offsetY dpr : ℝ)
    (ms : MouseStart) (mc : MouseCurrent)
    (h1 : s.mouseStart = some ms) (h2 : s.mouseCurrent = some mc) :
    move s offsetX offsetY dpr =
      (if ms.button = 0 then
        { (match mc.force with
            | some i =>
                { s with
                    forces :=
                      modifyIdx s.forces i fun f =>
                        { f with
                            x := f.x + ((mouseOf offsetX offsetY dpr).x - mc.x),
                            y := f.y - ((mouseOf offsetX offsetY dpr).y - mc.y) } }
            | none =>
                { s with
                    center :=
                      ⟨s.center.x + ((mouseOf offsetX offsetY dpr).x - mc.x),
                       s.center.y - ((mouseOf offsetX offsetY dpr).y - mc.y)⟩ }) with
          mouseCurrent :=
            some { mc with
              x := (mouseOf offsetX offsetY dpr).x,
              y := (mouseOf offsetX offsetY dpr).y } }
      else s) := by
  unfold move
  rw [h1, h2]

theorem move_ball_hit (s : Scene) (offsetX offsetY dpr : ℝ) :
    (move s offsetX offsetY dpr).ball = s.ball ∧
      (move s offsetX offsetY dpr).hit = s.hit := by
  rcases hms : s.mouseStart with _ | ms
  · unfold move
    rw [hms]
    exact ⟨rfl, rfl⟩
  · rcases hmc : s.mouseCurrent with _ | mc
    · unfold move
      rw [hms, hmc]
      exact ⟨rfl, rfl⟩
    · rw [move_some_eq s offsetX offsetY dpr ms mc hms hmc]
      by_cases hb : ms.button = 0
      · rw [if_pos hb]
        rcases hf : mc.force with _ | i
        · exact ⟨rfl, rfl⟩
        · exact ⟨rfl, rfl⟩
      · rw [if_neg hb]
        exact ⟨rfl, rfl⟩

/- ------------------------------------------------------------------
   Claim theorems
   ------------------------------------------------------------------ -/

/-- Claim C9: `reset()` re-initializes only the ball — restoring the level's
authored position and radius with zero velocity and returning to setup mode
(`hit = false`) — while forces, pan-center, hole, walls and stars are
unchanged and no force-count notification is emitted. -/
theorem c9_reset_only_ball (s : Scene) :
    (reset s).1.hit = false ∧
    (reset s).1.ball =
      ⟨s.level.ball.x, s.level.ball.y, s.level.ball.radius, 0, 0⟩ ∧
    (reset s).1.forces = s.forces ∧
    (reset s).1.center = s.center ∧
    (reset s).1.hole = s.hole ∧
    (reset s).1.walls = s.walls ∧
    (reset s).1.stars = s.stars ∧
    (reset s).2 = [] :=
  ⟨rfl, rfl, rfl, rfl, rfl, rfl, rfl, rfl⟩

/-- Claim C7: a pointer-up arriving in motion mode (`hit = true`) is an
early return — ball, forces, pan-center and also the transient gesture
state `mouseStart`/`mouseCurrent` are all left unchanged (not cleared) and
no notification is emitted. -/
theorem c7_up_motion_gated (s : Scene) (offsetX offsetY dpr : ℝ)
    (h : s.hit = true) :
    up s offsetX offsetY dpr = (s, []) :=
  up_hit_eq s offsetX offsetY dpr h

/-- Witness for C7 at a concrete scene in motion mode with a recorded
gesture; the gesture state is visibly retained. -/
theorem c7_witness :
    ({ blankScene with hit := true, mouseStart := some ⟨1, 2, 0⟩ } : Scene).hit
        = true ∧
      up { blankScene with hit := true, mouseStart := some ⟨1, 2, 0⟩ } 3 4 1 =
        ({ blankScene with hit := true, mouseStart := some ⟨1, 2, 0⟩ }, []) :=
  ⟨rfl, c7_up_motion_gated _ 3 4 1 rfl⟩

/-- Claim C1 (code-bug evidence): on a level with one attractive and one
repulsive authored default, `clear()` re-initializes the ball and replaces
the force collection — but the `defaultAntigravity` entry is mapped with
direction `1`, not `-1`, so the single emitted notification is `(2, 0)`
instead of the claimed `(attractive, repulsive) = (1, 1)`. -/
theorem c1_clear_defaults_eval :
    (clear blankScene).1.forces = [⟨-100, 0, 1⟩, ⟨50, 50, 1⟩] ∧
    (clear blankScene).2 = [SceneEvent.forces 2 0] ∧
    (clear blankScene).1.hit = false ∧
    (clear blankScene).1.ball = ⟨0, 0, 10, 0, 0⟩ :=
  ⟨rfl, rfl, rfl, rfl⟩

/-- Claim C8 (code-bug evidence): from the registration state left by the
constructor, `destroy()` is idempotent (second call changes nothing, and
browser frame cancellation never throws) and no tick can fire afterwards —
but the `contextmenu` listener registered at construction is still
registered after `destroy()`. -/
theorem c8_destroy_eval :
    destroy (destroy (constructedLifecycle 1 2)) =
        destroy (constructedLifecycle 1 2) ∧
      tickCanFire (destroy (constructedLifecycle 1 2)) = false ∧
      (destroy (constructedLifecycle 1 2)).contextmenuListener = true ∧
      (destroy (constructedLifecycle 1 2)).resizeListener = false ∧
      (destroy (constructedLifecycle 1 2)).keydownListener = false ∧
      (destroy (constructedLifecycle 1 2)).mousedownListener = false ∧
      (destroy (constructedLifecycle 1 2)).mousemoveListener = false ∧
      (destroy (constructedLifecycle 1 2)).mouseupListener = false ∧
      (destroy (constructedLifecycle 1 2)).dispatcherCount = 0 := by
  decide

/-- A concrete scene in motion mode, used to instantiate the tick claims. -/
def sceneMotion : Scene :=
  { blankScene with hit := true }

/-- Claim C3: during a motion-mode tick the level is won iff the normalized
ball-hole center distance is at most `hole.radius - ball.radius`; on a win
the tick returns with the ball and forces untouched and without
rescheduling itself (`frame` stays empty), handing off to navigation with
the next level id, or the level index when the current level is the last. -/
theorem c3_win_detection (s : Scene) (t : ℝ) (hhit : s.hit = true) :
    ((tick s t).2 = TickResult.won (navTarget s.level.id s.numLevels) ↔
      winCondition s) ∧
    (winCondition s →
      (tick s t).1.ball = s.ball ∧ (tick s t).1.forces = s.forces ∧
        (tick s t).1.frame = none) := by
  constructor
  · constructor
    · intro h
      by_contra hw
      rw [tick_snd_nowin s t hw] at h
      exact TickResult.noConfusion h
    · intro hw
      rw [tick_hit_win s t hhit hw]
  · intro hw
    rw [tick_hit_win s t hhit hw]
    exact ⟨rfl, rfl, rfl⟩

/-- Witness for C3 at a concrete motion-mode scene. -/
theorem c3_witness :
    sceneMotion.hit = true ∧
    (((tick sceneMotion 5).2 =
        TickResult.won (navTarget sceneMotion.level.id sceneMotion.numLevels) ↔
      winCondition sceneMotion) ∧
    (winCondition sceneMotion →
      (tick sceneMotion 5).1.ball = sceneMotion.ball ∧
        (tick sceneMotion 5).1.forces = sceneMotion.forces ∧
        (tick sceneMotion 5).1.frame = none)) :=
  ⟨rfl, c3_win_detection sceneMotion 5 rfl⟩

/-- Claim C4: the bounce response preserves the speed exactly for every
contact angle — `(cos b * s)² + (-sin b * s)² = vx² + vy²` with
`b = 2a - atan2(-vy, vx) + π` and `s = √(vy² + vx²)` — and a ball moving
`(vx, 0)` against a purely horizontal contact normal (contact angle `0` or
`π`) reflects to `(-vx, 0)`. -/
theorem c4_bounce_reflection (a vx vy : ℝ) :
    (bounce a vx vy).1 ^ 2 + (bounce a vx vy).2 ^ 2 = vx ^ 2 + vy ^ 2 ∧
    Real.sqrt ((bounce a vx vy).2 ^ 2 + (bounce a vx vy).1 ^ 2) =
      Real.sqrt (vy ^ 2 + vx ^ 2) ∧
    bounce 0 vx 0 = (-vx, 0) ∧
    bounce Real.pi vx 0 = (-vx, 0) := by
  have hsum : (bounce a vx vy).1 ^ 2 + (bounce a vx vy).2 ^ 2 =
      vx ^ 2 + vy ^ 2 := by
    simp only [bounce]
    have hs : Real.sqrt (vy ^ 2 + vx ^ 2) ^ 2 = vy ^ 2 + vx ^ 2 :=
      Real.sq_sqrt (by positivity)
    have ht := Real.sin_sq_add_cos_sq (2 * a - atan2 (-vy) vx + Real.pi)
    nlinarith [hs, ht]
  refine ⟨hsum, congrArg Real.sqrt (by linarith [hsum]), ?_, ?_⟩
  · rcases lt_trichotomy vx 0 with h | h | h
    · simp only [bounce, neg_zero, atan2_zero_neg h]
      rw [show 2 * (0 : ℝ) - Real.pi + Real.pi = 0 by ring, Real.cos_zero,
        Real.sin_zero,
        show (0 : ℝ) ^ 2 + vx ^ 2 = vx ^ 2 by ring, Real.sqrt_sq_eq_abs,
        abs_of_neg h]
      norm_num
    · subst h
      simp only [bounce, neg_zero, atan2_zero_zero]
      norm_num
    · simp only [bounce, neg_zero, atan2_zero_pos h]
      rw [show 2 * (0 : ℝ) - 0 + Real.pi = Real.pi by ring, Real.cos_pi,
        Real.sin_pi,
        show (0 : ℝ) ^ 2 + vx ^ 2 = vx ^ 2 by ring, Real.sqrt_sq_eq_abs,
        abs_of_pos h]
      norm_num
  · rcases lt_trichotomy vx 0 with h | h | h
    · simp only [bounce, neg_zero, atan2_zero_neg h]
      rw [show 2 * Real.pi - Real.pi + Real.pi = 2 * Real.pi by ring,
        Real.cos_two_pi, Real.sin_two_pi,
        show (0 : ℝ) ^ 2 + vx ^ 2 = vx ^ 2 by ring, Real.sqrt_sq_eq_abs,
        abs_of_neg h]
      norm_num
    · subst h
      simp only [bounce, neg_zero, atan2_zero_zero]
      norm_num
    · simp only [bounce, neg_zero, atan2_zero_pos h]
      rw [show 2 * Real.pi - 0 + Real.pi = Real.pi + 2 * Real.pi by ring,
        Real.cos_add_two_pi, Real.sin_add_two_pi, Real.cos_pi, Real.sin_pi,
        show (0 : ℝ) ^ 2 + vx ^ 2 = vx ^ 2 by ring, Real.sqrt_sq_eq_abs,
        abs_of_pos h]
      norm_num

theorem distance_comm (a b : Position) : distance a b = distance b a := by
  unfold distance
  rw [distanceSquared_comm]

/-- Claim C5: at nonzero separation, the acceleration a force emitter
applies to the ball's velocity has magnitude
`|clamp(-5000, 5000, direction * 100000000 / r²)|`, for either emitter
sign, and so never exceeds 5000 however small the separation becomes. -/
theorem c5_force_clamped (s : Scene) (f : Force) (p : Position)
    (h : distance (s.nPoint p) (s.nPoint ⟨f.x, f.y⟩) ≠ 0) :
    Real.sqrt ((forceAcceleration s f p).x ^ 2 +
        (forceAcceleration s f p).y ^ 2) =
      |clamp (-5000) 5000 ((f.direction : ℝ) * 100000000 /
        distanceSquared (s.nPoint p) (s.nPoint ⟨f.x, f.y⟩))| ∧
    Real.sqrt ((forceAcceleration s f p).x ^ 2 +
        (forceAcceleration s f p).y ^ 2) ≤ 5000 := by
  have hcd : distance (s.nPoint ⟨f.x, f.y⟩) (s.nPoint p) ≠ 0 := by
    rw [distance_comm]
    exact h
  have hsd : Real.sqrt (distanceSquared (s.nPoint p) (s.nPoint ⟨f.x, f.y⟩)) =
      distance (s.nPoint ⟨f.x, f.y⟩) (s.nPoint p) := by
    unfold distance
    rw [distanceSquared_comm]
  have hmain : Real.sqrt ((forceAcceleration s f p).x ^ 2 +
      (forceAcceleration s f p).y ^ 2) =
      |clamp (-5000) 5000 ((f.direction : ℝ) * 100000000 /
        distanceSquared (s.nPoint p) (s.nPoint ⟨f.x, f.y⟩))| := by
    simp only [forceAcceleration]
    rw [hsd]
    exact splitHypotenuse_mag _ _ _ hcd
  constructor
  · exact hmain
  · rw [hmain]
    exact clamp_abs_le _

/-- Witness for C5: a repulsive emitter at distance 10 from the ball point;
the applied magnitude is clamped below 5000. -/
theorem c5_witness :
    distance (blankScene.nPoint ⟨10, 0⟩) (blankScene.nPoint ⟨0, 0⟩) ≠ 0 ∧
    Real.sqrt ((forceAcceleration blankScene ⟨0, 0, -1⟩ ⟨10, 0⟩).x ^ 2 +
      (forceAcceleration blankScene ⟨0, 0, -1⟩ ⟨10, 0⟩).y ^ 2) ≤ 5000 := by
  have h : distance (blankScene.nPoint ⟨10, 0⟩) (blankScene.nPoint ⟨0, 0⟩) ≠ 0 := by
    have he : distance (blankScene.nPoint ⟨10, 0⟩) (blankScene.nPoint ⟨0, 0⟩) =
        Real.sqrt 100 := by
      norm_num [distance, distanceSquared, Scene.nPoint, normalizePoint,
        blankScene]
    rw [he, sqrt_hundred]
    norm_num
  exact ⟨h, (c5_force_clamped blankScene ⟨0, 0, -1⟩ ⟨10, 0⟩ h).2⟩

theorem shotVelocity_mag (s : Scene) (mouse : Position)
    (h : distance mouse (s.nPoint ⟨s.ball.x, s.ball.y⟩) ≠ 0) :
    Real.sqrt ((shotVelocity s mouse).x ^ 2 + (shotVelocity s mouse).y ^ 2) =
      min (distance mouse (s.nPoint ⟨s.ball.x, s.ball.y⟩) / MAX_DISTANCE) 1 *
        MAX_VELOCITY := by
  have hm : 0 ≤
      min (distance mouse (s.nPoint ⟨s.ball.x, s.ball.y⟩) / MAX_DISTANCE) 1 *
        MAX_VELOCITY := by
    apply mul_nonneg
    · exact le_min
        (div_nonneg (Real.sqrt_nonneg _) (by norm_num [MAX_DISTANCE]))
        zero_le_one
    · norm_num [MAX_VELOCITY]
  exact (splitHypotenuse_mag mouse (s.nPoint ⟨s.ball.x, s.ball.y⟩) _ h).trans
    (abs_of_nonneg hm)

/-- A concrete scene with a recorded primary-button press at `(400, 0)`,
which is 400 pixels from the normalized ball center `(0, 0)`. -/
def sceneShot : Scene :=
  { blankScene with mouseStart := some ⟨400, 0, 0⟩ }

/-- Claim C6: a primary-button release on the press position, at nonzero
distance `d` from the normalized ball center, enters motion mode and
launches the ball toward itself with speed
`min(d / MAX_DISTANCE, 1) * MAX_VELOCITY`; in particular `d ≥ MAX_DISTANCE`
gives speed `MAX_VELOCITY` and `d = MAX_DISTANCE / 2` gives
`MAX_VELOCITY / 2`. -/
theorem c6_shot_velocity (s : Scene) (offsetX offsetY dpr : ℝ)
    (ms : MouseStart) (h0 : s.hit = false) (h1 : s.mouseStart = some ms)
    (h2 : ms.button = 0)
    (h3 : (mouseOf offsetX offsetY dpr).x = ms.x)
    (h4 : (mouseOf offsetX offsetY dpr).y = ms.y)
    (h5 : distance (mouseOf offsetX offsetY dpr)
        (s.nPoint ⟨s.ball.x, s.ball.y⟩) ≠ 0) :
    (up s offsetX offsetY dpr).1.hit = true ∧
    (up s offsetX offsetY dpr).1.ball.vx =
      (shotVelocity s (mouseOf offsetX offsetY dpr)).x ∧
    (up s offsetX offsetY dpr).1.ball.vy =
      (shotVelocity s (mouseOf offsetX offsetY dpr)).y ∧
    Real.sqrt ((up s offsetX offsetY dpr).1.ball.vx ^ 2 +
        (up s offsetX offsetY dpr).1.ball.vy ^ 2) =
      min (distance (mouseOf offsetX offsetY dpr)
          (s.nPoint ⟨s.ball.x, s.ball.y⟩) / MAX_DISTANCE) 1 * MAX_VELOCITY ∧
    (MAX_DISTANCE ≤ distance (mouseOf offsetX offsetY dpr)
        (s.nPoint ⟨s.ball.x, s.ball.y⟩) →
      Real.sqrt ((up s offsetX offsetY dpr).1.ball.vx ^ 2 +
          (up s offsetX offsetY dpr).1.ball.vy ^ 2) = MAX_VELOCITY) ∧
    (distance (mouseOf offsetX offsetY dpr) (s.nPoint ⟨s.ball.x, s.ball.y⟩) =
        MAX_DISTANCE / 2 →
      Real.sqrt ((up s offsetX offsetY dpr).1.ball.vx ^ 2 +
          (up s offsetX offsetY dpr).1.ball.vy ^ 2) = MAX_VELOCITY / 2) := by
  rw [up_some_eq s offsetX offsetY dpr ms h0 h1, if_pos ⟨h2, h3, h4⟩]
  have hs := shotVelocity_mag s (mouseOf offsetX offsetY dpr) h5
  refine ⟨rfl, rfl, rfl, hs, ?_, ?_⟩
  · intro hge
    rw [hs, min_eq_right, one_mul]
    rw [le_div_iff₀ (by norm_num [MAX_DISTANCE] : (0 : ℝ) < MAX_DISTANCE)]
    linarith [hge]
  · intro heq
    rw [hs, heq]
    rw [show MAX_DISTANCE / 2 / MAX_DISTANCE = (1 : ℝ) / 2 by
      norm_num [MAX_DISTANCE]]
    rw [min_eq_left (by norm_num)]
    norm_num [MAX_VELOCITY]

/-- Witness for C6: releasing at the press point `(400, 0)`, 400 pixels
from the ball, launches at half the pull-back cap with speed 250. -/
theorem c6_witness :
    (mouseOf 400 0 1).x = (⟨400, 0, 0⟩ : MouseStart).x ∧
    (mouseOf 400 0 1).y = (⟨400, 0, 0⟩ : MouseStart).y ∧
    distance (mouseOf 400 0 1)
      (sceneShot.nPoint ⟨sceneShot.ball.x, sceneShot.ball.y⟩) ≠ 0 ∧
    (up sceneShot 400 0 1).1.hit = true ∧
    (distance (mouseOf 400 0 1)
        (sceneShot.nPoint ⟨sceneShot.ball.x, sceneShot.ball.y⟩) =
        MAX_DISTANCE / 2 →
      Real.sqrt ((up sceneShot 400 0 1).1.ball.vx ^ 2 +
          (up sceneShot 400 0 1).1.ball.vy ^ 2) = MAX_VELOCITY / 2) := by
  have h3 : (mouseOf 400 0 1).x = (⟨400, 0, 0⟩ : MouseStart).x := by
    norm_num [mouseOf]
  have h4 : (mouseOf 400 0 1).y = (⟨400, 0, 0⟩ : MouseStart).y := by
    norm_num [mouseOf]
  have h5 : distance (mouseOf 400 0 1)
      (sceneShot.nPoint ⟨sceneShot.ball.x, sceneShot.ball.y⟩) ≠ 0 := by
    have he : distance (mouseOf 400 0 1)
        (sceneShot.nPoint ⟨sceneShot.ball.x, sceneShot.ball.y⟩) =
        Real.sqrt 160000 := by
      norm_num [distance, distanceSquared, mouseOf, Scene.nPoint,
        normalizePoint, sceneShot, blankScene]
    rw [he, sqrt_160000]
    norm_num
  have hc := c6_shot_velocity sceneShot 400 0 1 ⟨400, 0, 0⟩ rfl rfl rfl h3 h4 h5
  exact ⟨h3, h4, h5, hc.1, hc.2.2.2.2.2⟩

/- ------------------------------------------------------------------
   Claim C2: the secondary-button removal branch
   ------------------------------------------------------------------ -/

theorem secondaryRemovalIndex_some_iff (s : Scene) (mouse : Position)
    (i : ℕ) :
    secondaryRemovalIndex s mouse = some i ↔
      ∃ mc f, s.mouseCurrent = some mc ∧ mc.force = some i ∧
        s.forces.get? i = some f ∧ mouseOnForce s mouse f := by
  simp only [secondaryRemovalIndex, Option.bind_eq_some,
    Option.ite_none_right_eq_some, Option.some.injEq]
  constructor
  · rintro ⟨mc, hmc, j, hj, f, hf, hon, rfl⟩
    exact ⟨mc, f, hmc, hj, hf, hon⟩
  · rintro ⟨mc, f, hmc, hi, hf, hon⟩
    exact ⟨mc, hmc, i, hi, f, hf, hon, rfl⟩

theorem mouseOnForce_sceneC2 :
    mouseOnForce sceneC2 (mouseOf 110 100 1) ⟨100, -100, 1⟩ := by
  show distance (sceneC2.nPoint ⟨(100 : ℝ), -100⟩) (mouseOf 110 100 1) ≤
    FORCE_RADIUS
  have he : distance (sceneC2.nPoint ⟨(100 : ℝ), -100⟩) (mouseOf 110 100 1) =
      Real.sqrt 100 := by
    norm_num [distance, distanceSquared, Scene.nPoint, normalizePoint,
      sceneC2, blankScene, mouseOf]
  rw [he, sqrt_hundred]
  norm_num [FORCE_RADIUS]

theorem secondaryRemovalIndex_sceneC2 :
    secondaryRemovalIndex sceneC2 (mouseOf 110 100 1) = some 0 := by
  show (if mouseOnForce sceneC2 (mouseOf 110 100 1) (⟨100, -100, 1⟩ : Force)
    then some 0 else none) = some 0
  rw [if_pos mouseOnForce_sceneC2]

/-- Counterexample to claim C2 as stated: a secondary-button release at a
position DIFFERENT from the press position (a drag occurred), whose
pointer still lies within `FORCE_RADIUS` of the associated force, removes
that force and emits a notification — the code never compares the release
position with the press position in this branch. -/
theorem c2_counterexample :
    sceneC2.hit = false ∧
    sceneC2.mouseStart = some ⟨100, 100, 2⟩ ∧
    sceneC2.forces = [⟨100, -100, 1⟩] ∧
    mouseOnForce sceneC2 ⟨100, 100⟩ ⟨100, -100, 1⟩ ∧
    mouseOf 110 100 1 ≠ (⟨100, 100⟩ : Position) ∧
    (up sceneC2 110 100 1).1.forces = [] ∧
    (up sceneC2 110 100 1).2 = [SceneEvent.forces 0 0] := by
  refine ⟨rfl, rfl, rfl, ?_, ?_, ?_, ?_⟩
  · show distance (sceneC2.nPoint ⟨(100 : ℝ), -100⟩) ⟨100, 100⟩ ≤ FORCE_RADIUS
    have he : distance (sceneC2.nPoint ⟨(100 : ℝ), -100⟩) ⟨100, 100⟩ =
        Real.sqrt 0 := by
      norm_num [distance, distanceSquared, Scene.nPoint, normalizePoint,
        sceneC2, blankScene]
    rw [he, Real.sqrt_zero]
    norm_num [FORCE_RADIUS]
  · intro h
    have hx := congrArg Position.x h
    norm_num [mouseOf] at hx
  · rw [up_some_eq sceneC2 110 100 1 ⟨100, 100, 2⟩ rfl rfl,
      if_neg (by norm_num), if_pos rfl, secondaryRemovalIndex_sceneC2]
    rfl
  · rw [up_some_eq sceneC2 110 100 1 ⟨100, 100, 2⟩ rfl rfl,
      if_neg (by norm_num), if_pos rfl, secondaryRemovalIndex_sceneC2]
    rfl

/-- Claim C2 (amended): for a pointer-up in setup mode with the secondary
button, the associated force is removed — and exactly one force-count
notification emitted — precisely when a force was associated with the
gesture at pointer-down, it is still present, and the RELEASE position
lies within `FORCE_RADIUS` of it (release-equals-press is not required);
in every other secondary-button release nothing is removed and nothing is
emitted. -/
theorem c2_secondary_removal (s : Scene) (offsetX offsetY dpr : ℝ)
    (ms : MouseStart) (h0 : s.hit = false) (h1 : s.mouseStart = some ms)
    (h2 : ms.button = 2) :
    (∀ i, secondaryRemovalIndex s (mouseOf offsetX offsetY dpr) = some i →
        (up s offsetX offsetY dpr).1.forces = s.forces.eraseIdx i ∧
        (up s offsetX offsetY dpr).2 =
          [dispatchForces (s.forces.eraseIdx i)]) ∧
    (secondaryRemovalIndex s (mouseOf offsetX offsetY dpr) = none →
        (up s offsetX offsetY dpr).1.forces = s.forces ∧
        (up s offsetX offsetY dpr).2 = []) ∧
    (∀ i, secondaryRemovalIndex s (mouseOf offsetX offsetY dpr) = some i ↔
        ∃ mc f, s.mouseCurrent = some mc ∧ mc.force = some i ∧
          s.forces.get? i = some f ∧
          mouseOnForce s (mouseOf offsetX offsetY dpr) f) := by
  have hnc : ¬(ms.button = 0 ∧ (mouseOf offsetX offsetY dpr).x = ms.x ∧
      (mouseOf offsetX offsetY dpr).y = ms.y) := by
    simp [h2]
  rw [up_some_eq s offsetX offsetY dpr ms h0 h1, if_neg hnc, if_pos h2]
  refine ⟨?_, ?_, ?_⟩
  · intro i hi
    rw [hi]
    exact ⟨rfl, rfl⟩
  · intro hn
    rw [hn]
    exact ⟨rfl, rfl⟩
  · intro i
    exact secondaryRemovalIndex_some_iff s (mouseOf offsetX offsetY dpr) i

/-- Witness for C2's amended theorem: the removal case fires on `sceneC2`
at release position `(110, 100)`. -/
theorem c2_witness :
    sceneC2.hit = false ∧
    (⟨100, 100, 2⟩ : MouseStart).button = 2 ∧
    (up sceneC2 110 100 1).1.forces = sceneC2.forces.eraseIdx 0 ∧
    (up sceneC2 110 100 1).2 = [dispatchForces (sceneC2.forces.eraseIdx 0)] := by
  have hc := (c2_secondary_removal sceneC2 110 100 1 ⟨100, 100, 2⟩
    rfl rfl rfl).1 0 secondaryRemovalIndex_sceneC2
  exact ⟨rfl, rfl, hc.1, hc.2⟩

/- ------------------------------------------------------------------
   Claim C10: setup-mode velocity invariant
   ------------------------------------------------------------------ -/

/-- The implicit invariant of claim C10: whenever the scene is in setup
mode, the ball's velocity components are both zero. -/
def SetupInv (s : Scene) : Prop :=
  s.hit = false → s.ball.vx = 0 ∧ s.ball.vy = 0

/-- Claim C10: `SetupInv` is established by `reset`/`clear` and preserved
by every handler — the shot branch of `up`, the only writer of a possibly
nonzero velocity, sets `hit := true` in the same step — and therefore the
unconditional position integration of a setup-mode tick leaves the ball's
position unchanged. -/
theorem c10_setup_invariant (s : Scene) (hinv : SetupInv s) :
    SetupInv (reset s).1 ∧
    SetupInv (clear s).1 ∧
    (∀ offsetX offsetY dpr b, SetupInv (down s offsetX offsetY dpr b)) ∧
    (∀ offsetX offsetY dpr, SetupInv (move s offsetX offsetY dpr)) ∧
    (∀ offsetX offsetY dpr, SetupInv (up s offsetX offsetY dpr).1) ∧
    (∀ p dir dpr, SetupInv (addForce s p dir dpr).1) ∧
    (∀ b, SetupInv (keyHandler s b).1) ∧
    (∀ t, SetupInv (tick s t).1) ∧
    (∀ offsetX offsetY dpr,
      ((up s offsetX offsetY dpr).1.ball.vx = s.ball.vx ∧
        (up s offsetX offsetY dpr).1.ball.vy = s.ball.vy) ∨
      (up s offsetX offsetY dpr).1.hit = true) ∧
    (s.hit = false → ∀ t,
      (tick s t).1.ball.x = s.ball.x ∧ (tick s t).1.ball.y = s.ball.y) := by
  refine ⟨fun _ => ⟨rfl, rfl⟩, fun _ => ⟨rfl, rfl⟩, ?_, ?_, ?_, ?_, ?_, ?_,
    ?_, ?_⟩
  · intro offsetX offsetY dpr b hf
    exact hinv hf
  · intro offsetX offsetY dpr hf
    obtain ⟨hb, hh⟩ := move_ball_hit s offsetX offsetY dpr
    rw [hh] at hf
    rw [hb]
    exact hinv hf
  · intro offsetX offsetY dpr hf
    rcases up_cases s offsetX offsetY dpr with h | ⟨hb, hh⟩
    · rw [h] at hf
      exact Bool.noConfusion hf
    · rw [hh] at hf
      rw [hb]
      exact hinv hf
  · intro p dir dpr hf
    exact hinv hf
  · intro b
    cases b
    · exact fun hf => hinv hf
    · exact fun _ => ⟨rfl, rfl⟩
  · intro t hf
    rw [tick_hit_preserved] at hf
    rw [tick_nohit_ball s t hf]
    exact hinv hf
  · intro offsetX offsetY dpr
    rcases up_cases s offsetX offsetY dpr with h | ⟨hb, hh⟩
    · exact Or.inr h
    · exact Or.inl ⟨by rw [hb], by rw [hb]⟩
  · intro hf t
    obtain ⟨hvx, hvy⟩ := hinv hf
    rw [tick_nohit_ball s t hf]
    unfold integrateBall
    constructor
    · show s.ball.x + s.ball.vx * _ = s.ball.x
      rw [hvx]
      ring
    · show s.ball.y - s.ball.vy * _ = s.ball.y
      rw [hvy]
      ring

/-- Witness for C10 at the blank setup-mode scene. -/
theorem c10_witness :
    SetupInv blankScene ∧
    (∀ t, SetupInv (tick blankScene t).1) ∧
    (blankScene.hit = false → ∀ t,
      (tick blankScene t).1.ball.x = blankScene.ball.x ∧
        (tick blankScene t).1.ball.y = blankScene.ball.y) := by
  have hinv : SetupInv blankScene := fun _ => ⟨rfl, rfl⟩
  have hc := c10_setup_invariant blankScene hinv
  exact ⟨hinv, hc.2.2.2.2.2.2.2.1, hc.2.2.2.2.2.2.2.2.2⟩

end

end GravityGolf
